import Mathlib

/-!
Shallow embedding of `src/image/Image.tsx` (tdesign-react `Image` component).

The component keeps five independent React state cells
(`imageSrc`, `shouldLoad`, `isLoaded`, `hasError`, `shouldShowOverlay`);
we bundle them, together with the externally resolved `previewUrl` and
counters for the `onLoad` / `onError` callback invocations, into a `State`
record.  Every effect and event handler of the source file becomes a pure
state transformer; a component run is a fold of events over the initial
state.  JS truthiness of a string prop is modelled as "non-empty string".
-/

namespace TDImage

/-- Props of the component that the load / overlay logic reads
(`src`, `fallback`, `lazy`, `srcset`, `overlayTrigger`).  A `srcset`
mapping is an association list in its (deterministic) key order; `none`
models an absent prop.  `overlayTrigger` keeps the raw string of the
source (`'hover'`, `'always'`, or `""` for unset), since the code only
ever compares it with the literal `'hover'`. -/
structure ImageProps where
  src : String
  fallback : String
  lazy : Bool
  srcset : Option (List (String × String))
  overlayTrigger : String
deriving Repr, DecidableEq

/-- The slice of the locale configuration the component reads:
the optional `replaceImageSrc` rewrite hook (line 60), which receives
the full property bag and returns a string. -/
structure Locale where
  replaceImageSrc : Option (ImageProps → String)

/-- `hasMouseEvent = overlayTrigger === 'hover'` (line 112). -/
def hasMouseEvent (p : ImageProps) : Bool :=
  p.overlayTrigger == "hover"

/-- The mutable per-instance state, plus the externally supplied
`previewUrl` and observation counters for the two callbacks. -/
structure State where
  imageSrc : String
  previewUrl : String
  shouldLoad : Bool
  isLoaded : Bool
  hasError : Bool
  shouldShowOverlay : Bool
  onLoadCount : Nat
  onErrorCount : Nat
deriving Repr, DecidableEq

/-- Initial state: `useState(src)` (line 57), `useState(!lazy)` (line 68),
`useState(false)` for `isLoaded` (line 73) and `hasError` (line 95),
`useState(!hasMouseEvent)` (line 113).  `previewUrl` starts unresolved. -/
def init (p : ImageProps) : State :=
  { imageSrc := p.src
    previewUrl := ""
    shouldLoad := !p.lazy
    isLoaded := false
    hasError := false
    shouldShowOverlay := !(hasMouseEvent p)
    onLoadCount := 0
    onErrorCount := 0 }

/-- `tmpUrl` of the source-resolution effect (line 60):
`isFunction(local.replaceImageSrc) ? local.replaceImageSrc(props) : src`. -/
def resolveSrc (loc : Locale) (p : ImageProps) : String :=
  match loc.replaceImageSrc with
  | some f => f p
  | none => p.src

/-- The source-resolution effect (lines 59-64): recompute `tmpUrl`;
if it equals the current `imageSrc` and `imageSrc` is truthy, bail out,
otherwise assign it.  Note that the effect assigns `imageSrc` only. -/
def sourceEffect (loc : Locale) (p : ImageProps) (s : State) : State :=
  let tmpUrl := resolveSrc loc p
  if tmpUrl = s.imageSrc ∧ s.imageSrc ≠ "" then s
  else { s with imageSrc := tmpUrl }

/-- `handleLoadImage` (lines 69-71), the one-shot intersection callback. -/
def handleLoadImage (s : State) : State :=
  { s with shouldLoad := true }

/-- `handleLoad` (lines 74-77): mark loaded, invoke `onLoad`. -/
def handleLoad (s : State) : State :=
  { s with isLoaded := true, onLoadCount := s.onLoadCount + 1 }

/-- First statement of `handleError` (line 97): `setHasError(true)`. -/
def handleErrorSetFlag (s : State) : State :=
  { s with hasError := true }

/-- Fallback branch of `handleError` (lines 98-101): when `fallback` is
truthy, substitute it as the source and clear the error flag. -/
def handleErrorFallback (p : ImageProps) (s : State) : State :=
  if p.fallback ≠ "" then
    { s with imageSrc := p.fallback, hasError := false }
  else s

/-- `handleError` (lines 96-103), composed of its statements in source
order, ending with the unconditional `onError` invocation (line 102). -/
def handleError (p : ImageProps) (s : State) : State :=
  let s1 := handleErrorSetFlag s
  let s2 := handleErrorFallback p s1
  { s2 with onErrorCount := s2.onErrorCount + 1 }

/-- The preview effect (lines 105-110): when `previewUrl` changes, if the
component is in error and the new url is truthy, clear the error flag. -/
def previewEffect (url : String) (s : State) : State :=
  let s1 := { s with previewUrl := url }
  if s1.hasError ∧ url ≠ "" then { s1 with hasError := false } else s1

/-- `handleToggleOverlay` (lines 114-116). -/
def handleToggleOverlay (b : Bool) (s : State) : State :=
  { s with shouldShowOverlay := b }

/-- Discrete external notifications the component reacts to.  Events that
close over the current props / locale carry them as payload. -/
inductive Event where
  | sourceChange (loc : Locale) (p : ImageProps)
  | loadNotif
  | errorNotif (p : ImageProps)
  | intersect
  | previewResolved (url : String)
  | mouseEnter (p : ImageProps)
  | mouseLeave (p : ImageProps)

/-- One step of the component: dispatch an event to its handler.  The
pointer handlers are wired on the root only when `hasMouseEvent` holds
(lines 184-189); otherwise a pointer event changes nothing. -/
def step : Event → State → State
  | .sourceChange loc p, s => sourceEffect loc p s
  | .loadNotif, s => handleLoad s
  | .errorNotif p, s => handleError p s
  | .intersect, s => handleLoadImage s
  | .previewResolved url, s => previewEffect url s
  | .mouseEnter p, s => if hasMouseEvent p then handleToggleOverlay true s else s
  | .mouseLeave p, s => if hasMouseEvent p then handleToggleOverlay false s else s

/-- Run a sequence of events. -/
def run (tr : List Event) (s : State) : State :=
  tr.foldl (fun t e => step e t) s

/-- The spec's LoadState view of the two flags: ERRORED when `hasError`,
else LOADED when `isLoaded`, else NOT_STARTED. -/
inductive LoadState where
  | NOT_STARTED
  | LOADED
  | ERRORED
deriving Repr, DecidableEq

def loadState (s : State) : LoadState :=
  if s.hasError then .ERRORED
  else if s.isLoaded then .LOADED
  else .NOT_STARTED

/-- Render condition for the image/content region (line 196):
`!(hasError || !shouldLoad)`. -/
def contentShown (s : State) : Bool :=
  !(s.hasError || !s.shouldLoad)

/-- Render condition for the loading indicator (line 199), nested inside
the content region: `!(hasError || !shouldLoad) && !isLoaded`. -/
def loadingShown (s : State) : Bool :=
  contentShown s && (!(s.hasError || !s.shouldLoad) && !s.isLoaded)

/-- Render condition for the error region (line 213): `hasError`. -/
def errorShown (s : State) : Bool :=
  s.hasError

/-- One entry of the `<picture>` render plan: a typed `<source>` element
or the plain `<img>` element. -/
inductive RenderEntry where
  | sourceEntry (mime url : String)
  | imgEntry (url : String)
deriving Repr, DecidableEq

/-- Activation condition of the source-set mode (line 198):
`srcset && Object.keys(srcset).length`. -/
def srcsetMode (p : ImageProps) : Bool :=
  match p.srcset with
  | some m => m.length != 0
  | none => false

/-- `renderImage` (lines 147-162) requests `imageSrc` (a string in this
model, so the `previewUrl` alternative of line 148 is not taken). -/
def imgUrl (s : State) : String :=
  s.imageSrc

/-- `renderImageSrcset` (lines 164-171): one `<source>` per `srcset`
entry in mapping order, then `props.src && renderImage()` — the plain
image entry is appended only when the raw `src` prop is truthy. -/
def renderImageSrcset (p : ImageProps) (s : State) : List RenderEntry :=
  ((p.srcset.getD []).map fun e => RenderEntry.sourceEntry e.1 e.2)
    ++ (if p.src ≠ "" then [RenderEntry.imgEntry (imgUrl s)] else [])

/-- An event list whose pointer events all carry props with the hover
trigger disabled, i.e. events of a component whose root never wires the
`onMouseEnter` / `onMouseLeave` handlers. -/
def pointerUnwired (tr : List Event) : Prop :=
  ∀ e ∈ tr, ∀ q, (e = Event.mouseEnter q ∨ e = Event.mouseLeave q) →
    hasMouseEvent q = false

theorem step_shouldLoad_mono (e : Event) (s : State) (h : s.shouldLoad = true) :
    (step e s).shouldLoad = true := by
  cases e with
  | sourceChange loc p =>
      simp only [step, sourceEffect]
      split <;> simp [h]
  | loadNotif => simpa [step, handleLoad] using h
  | errorNotif p =>
      simp only [step, handleError, handleErrorFallback, handleErrorSetFlag]
      split <;> simp [h]
  | intersect => simp [step, handleLoadImage]
  | previewResolved url =>
      simp only [step, previewEffect]
      split <;> simp [h]
  | mouseEnter p =>
      simp only [step]
      split <;> simp [handleToggleOverlay, h]
  | mouseLeave p =>
      simp only [step]
      split <;> simp [handleToggleOverlay, h]

theorem run_shouldLoad_mono (tr : List Event) (s : State)
    (h : s.shouldLoad = true) : (run tr s).shouldLoad = true := by
  induction tr generalizing s with
  | nil => simpa [run] using h
  | cons e tr ih =>
      simpa [run, List.foldl_cons] using ih _ (step_shouldLoad_mono e s h)

theorem step_isLoaded_mono (e : Event) (s : State) (h : s.isLoaded = true) :
    (step e s).isLoaded = true := by
  cases e with
  | sourceChange loc p =>
      simp only [step, sourceEffect]
      split <;> simp [h]
  | loadNotif => simp [step, handleLoad]
  | errorNotif p =>
      simp only [step, handleError, handleErrorFallback, handleErrorSetFlag]
      split <;> simp [h]
  | intersect => simpa [step, handleLoadImage] using h
  | previewResolved url =>
      simp only [step, previewEffect]
      split <;> simp [h]
  | mouseEnter p =>
      simp only [step]
      split <;> simp [handleToggleOverlay, h]
  | mouseLeave p =>
      simp only [step]
      split <;> simp [handleToggleOverlay, h]

theorem run_isLoaded_mono (tr : List Event) (s : State)
    (h : s.isLoaded = true) : (run tr s).isLoaded = true := by
  induction tr generalizing s with
  | nil => simpa [run] using h
  | cons e tr ih =>
      simpa [run, List.foldl_cons] using ih _ (step_isLoaded_mono e s h)

theorem step_overlay_preserved (e : Event) (s : State)
    (h : s.shouldShowOverlay = true)
    (hw : ∀ q, (e = Event.mouseEnter q ∨ e = Event.mouseLeave q) →
      hasMouseEvent q = false) :
    (step e s).shouldShowOverlay = true := by
  cases e with
  | sourceChange loc p =>
      simp only [step, sourceEffect]
      split <;> simp [h]
  | loadNotif => simpa [step, handleLoad] using h
  | errorNotif p =>
      simp only [step, handleError, handleErrorFallback, handleErrorSetFlag]
      split <;> simp [h]
  | intersect => simpa [step, handleLoadImage] using h
  | previewResolved url =>
      simp only [step, previewEffect]
      split <;> simp [h]
  | mouseEnter q =>
      have hq := hw q (Or.inl rfl)
      simp [step, hq, h]
  | mouseLeave q =>
      have hq := hw q (Or.inr rfl)
      simp [step, hq, h]

theorem run_overlay_preserved (tr : List Event) (s : State)
    (h : s.shouldShowOverlay = true) (hw : pointerUnwired tr) :
    (run tr s).shouldShowOverlay = true := by
  induction tr generalizing s with
  | nil => simpa [run] using h
  | cons e tr ih =>
      have he : ∀ q, (e = Event.mouseEnter q ∨ e = Event.mouseLeave q) →
          hasMouseEvent q = false :=
        fun q hq => hw e (List.mem_cons_self e tr) q hq
      have htr : pointerUnwired tr :=
        fun e' he' q hq => hw e' (List.mem_cons_of_mem e he') q hq
      simpa [run, List.foldl_cons] using
        ih _ (step_overlay_preserved e s h he) htr

/-- C4: the resolver uses the rewrite hook's string result on the full
property bag when the hook is a function, else the raw source verbatim;
and when the computed value equals the current `imageSrc` and that value
is non-empty, the effect is suppressed (the state is unchanged),
otherwise `imageSrc` is assigned the computed value. -/
theorem source_resolver_spec (loc : Locale) (p : ImageProps) (s : State) :
    (∀ f, loc.replaceImageSrc = some f → resolveSrc loc p = f p) ∧
    (loc.replaceImageSrc = none → resolveSrc loc p = p.src) ∧
    (resolveSrc loc p = s.imageSrc ∧ s.imageSrc ≠ "" →
      sourceEffect loc p s = s) ∧
    (¬(resolveSrc loc p = s.imageSrc ∧ s.imageSrc ≠ "") →
      sourceEffect loc p s = { s with imageSrc := resolveSrc loc p }) := by
  refine ⟨?_, ?_, ?_, ?_⟩
  · intro f hf
    simp [resolveSrc, hf]
  · intro hn
    simp [resolveSrc, hn]
  · intro h
    simp [sourceEffect, h]
  · intro h
    simp [sourceEffect, h]

theorem source_resolver_spec_witness :
    sourceEffect ⟨some fun q => q.fallback⟩ ⟨"a", "b", false, none, ""⟩
        (init ⟨"b", "", false, none, ""⟩) =
      init ⟨"b", "", false, none, ""⟩ :=
  (source_resolver_spec ⟨some fun q => q.fallback⟩ ⟨"a", "b", false, none, ""⟩
      (init ⟨"b", "", false, none, ""⟩)).2.2.1 ⟨rfl, by decide⟩

/-- C5: with `lazy=false` the gate is READY (`shouldLoad = true`) at
creation; with `lazy=true` it starts PENDING and the intersection
notification makes it READY; the transition is one-way — once
`shouldLoad` is true, no sequence of events ever makes it false. -/
theorem visibility_gate_spec (p : ImageProps) (s : State) (tr : List Event) :
    (p.lazy = false → (init p).shouldLoad = true) ∧
    (p.lazy = true → (init p).shouldLoad = false) ∧
    ((step Event.intersect s).shouldLoad = true) ∧
    (s.shouldLoad = true → (run tr s).shouldLoad = true) := by
  refine ⟨?_, ?_, ?_, ?_⟩
  · intro h
    simp [init, h]
  · intro h
    simp [init, h]
  · simp [step, handleLoadImage]
  · exact fun h => run_shouldLoad_mono tr s h

theorem visibility_gate_spec_witness :
    (init ⟨"a", "", false, none, ""⟩).shouldLoad = true :=
  (visibility_gate_spec ⟨"a", "", false, none, ""⟩
      (init ⟨"a", "", false, none, ""⟩) []).1 rfl

/-- C6: in every state, the content region is rendered iff the state is
not ERRORED and the gate is READY; the loading indicator is rendered iff
the content region is rendered and the state is not LOADED; the error
region is rendered iff the state is ERRORED; the error region and the
loading indicator are never rendered simultaneously. -/
theorem rendering_derivation_spec (s : State) :
    contentShown s = (decide (loadState s ≠ LoadState.ERRORED) && s.shouldLoad) ∧
    loadingShown s = (contentShown s && decide (loadState s ≠ LoadState.LOADED)) ∧
    errorShown s = decide (loadState s = LoadState.ERRORED) ∧
    (errorShown s && loadingShown s) = false := by
  rcases s with ⟨isrc, purl, sl, il, he, ov, lc, ec⟩
  cases sl <;> cases il <;> cases he <;>
    simp [contentShown, loadingShown, errorShown, loadState]

/-- C7: with `overlayTrigger='hover'` the overlay starts hidden,
pointer-enter shows it and pointer-leave hides it; with any other
trigger value the overlay starts visible, pointer events are not wired
(they leave the state unchanged), and along any event sequence whose
pointer events are unwired the overlay stays visible. -/
theorem overlay_spec (p : ImageProps) (s : State) (tr : List Event) :
    (hasMouseEvent p = true →
      (init p).shouldShowOverlay = false ∧
      (step (Event.mouseEnter p) s).shouldShowOverlay = true ∧
      (step (Event.mouseLeave p) s).shouldShowOverlay = false) ∧
    (hasMouseEvent p = false →
      (init p).shouldShowOverlay = true ∧
      step (Event.mouseEnter p) s = s ∧
      step (Event.mouseLeave p) s = s ∧
      (pointerUnwired tr → (run tr (init p)).shouldShowOverlay = true)) := by
  constructor
  · intro h
    refine ⟨?_, ?_, ?_⟩
    · simp [init, h]
    · simp [step, h, handleToggleOverlay]
    · simp [step, h, handleToggleOverlay]
  · intro h
    refine ⟨?_, ?_, ?_, ?_⟩
    · simp [init, h]
    · simp [step, h]
    · simp [step, h]
    · intro hw
      exact run_overlay_preserved tr (init p) (by simp [init, h]) hw

theorem overlay_spec_witness :
    (step (Event.mouseEnter ⟨"a", "", false, none, "hover"⟩)
        (init ⟨"a", "", false, none, "hover"⟩)).shouldShowOverlay = true :=
  ((overlay_spec ⟨"a", "", false, none, "hover"⟩
      (init ⟨"a", "", false, none, "hover"⟩) []).1 (by decide)).2.1

/-- C1 counterexample: starting from `src="a.jpg"`, after a successful
load (resp. after an error with no fallback), a source change to
"b.jpg" — not suppressed by the guard, `imageSrc` does change — leaves
`isLoaded` (resp. `hasError`) set, so the LoadState immediately after
the change is LOADED (resp. ERRORED), not NOT_STARTED. -/
theorem source_change_reset_cex :
    (run [Event.loadNotif,
        Event.sourceChange ⟨none⟩ ⟨"b.jpg", "", false, none, ""⟩]
      (init ⟨"a.jpg", "", false, none, ""⟩)).imageSrc = "b.jpg" ∧
    (run [Event.loadNotif,
        Event.sourceChange ⟨none⟩ ⟨"b.jpg", "", false, none, ""⟩]
      (init ⟨"a.jpg", "", false, none, ""⟩)).isLoaded = true ∧
    loadState (run [Event.loadNotif,
        Event.sourceChange ⟨none⟩ ⟨"b.jpg", "", false, none, ""⟩]
      (init ⟨"a.jpg", "", false, none, ""⟩)) = LoadState.LOADED ∧
    (run [Event.errorNotif ⟨"a.jpg", "", false, none, ""⟩,
        Event.sourceChange ⟨none⟩ ⟨"b.jpg", "", false, none, ""⟩]
      (init ⟨"a.jpg", "", false, none, ""⟩)).imageSrc = "b.jpg" ∧
    (run [Event.errorNotif ⟨"a.jpg", "", false, none, ""⟩,
        Event.sourceChange ⟨none⟩ ⟨"b.jpg", "", false, none, ""⟩]
      (init ⟨"a.jpg", "", false, none, ""⟩)).hasError = true ∧
    loadState (run [Event.errorNotif ⟨"a.jpg", "", false, none, ""⟩,
        Event.sourceChange ⟨none⟩ ⟨"b.jpg", "", false, none, ""⟩]
      (init ⟨"a.jpg", "", false, none, ""⟩)) = LoadState.ERRORED := by
  refine ⟨rfl, rfl, rfl, rfl, rfl, rfl⟩

/-- C1 amended: the source-resolution effect assigns `imageSrc` only; a
source change, suppressed or not, leaves `isLoaded`, `hasError` and
`shouldLoad` exactly as they were (LoadState is not reset). -/
theorem source_change_preserves_flags (loc : Locale) (p : ImageProps)
    (s : State) :
    (sourceEffect loc p s).isLoaded = s.isLoaded ∧
    (sourceEffect loc p s).hasError = s.hasError ∧
    (sourceEffect loc p s).shouldLoad = s.shouldLoad ∧
    loadState (sourceEffect loc p s) = loadState s := by
  have h : (sourceEffect loc p s).isLoaded = s.isLoaded ∧
      (sourceEffect loc p s).hasError = s.hasError ∧
      (sourceEffect loc p s).shouldLoad = s.shouldLoad := by
    simp only [sourceEffect]
    split <;> simp
  exact ⟨h.1, h.2.1, h.2.2, by simp [loadState, h.1, h.2.1]⟩

/-- C2 counterexample: with `src="a.jpg"` and `fallback="b.jpg"`, after
the failure of A followed by the failure of B the state is NOT_STARTED
(the fallback branch cleared `hasError` again), not ERRORED. -/
theorem fallback_double_failure_cex :
    loadState (run
        [Event.errorNotif ⟨"a.jpg", "b.jpg", false, none, ""⟩,
         Event.errorNotif ⟨"a.jpg", "b.jpg", false, none, ""⟩]
      (init ⟨"a.jpg", "b.jpg", false, none, ""⟩)) = LoadState.NOT_STARTED ∧
    (run [Event.errorNotif ⟨"a.jpg", "b.jpg", false, none, ""⟩,
         Event.errorNotif ⟨"a.jpg", "b.jpg", false, none, ""⟩]
      (init ⟨"a.jpg", "b.jpg", false, none, ""⟩)).hasError = false ∧
    decide (loadState (run
        [Event.errorNotif ⟨"a.jpg", "b.jpg", false, none, ""⟩,
         Event.errorNotif ⟨"a.jpg", "b.jpg", false, none, ""⟩]
      (init ⟨"a.jpg", "b.jpg", false, none, ""⟩)) = LoadState.ERRORED) = false := by
  refine ⟨rfl, rfl, rfl⟩

/-- C2 amended: for any configured fallback B, after A fails then B
fails, `imageSrc` is pinned to B and `onError` has fired exactly twice,
but the state is NOT_STARTED — the fallback branch clears `hasError` on
every failure, including the fallback's own; a further failure only
bumps the callback counter (no substitution loop). -/
theorem fallback_double_failure (p : ImageProps) (hB : p.fallback ≠ "") :
    run [Event.errorNotif p, Event.errorNotif p] (init p) =
      { init p with imageSrc := p.fallback, onErrorCount := 2 } ∧
    loadState (run [Event.errorNotif p, Event.errorNotif p] (init p)) =
      LoadState.NOT_STARTED ∧
    step (Event.errorNotif p)
        (run [Event.errorNotif p, Event.errorNotif p] (init p)) =
      { init p with imageSrc := p.fallback, onErrorCount := 3 } := by
  refine ⟨?_, ?_, ?_⟩ <;>
    simp [run, step, handleError, handleErrorSetFlag, handleErrorFallback,
      loadState, init, hB]

theorem fallback_double_failure_witness :
    loadState (run
        [Event.errorNotif ⟨"x.jpg", "y.jpg", false, none, ""⟩,
         Event.errorNotif ⟨"x.jpg", "y.jpg", false, none, ""⟩]
      (init ⟨"x.jpg", "y.jpg", false, none, ""⟩)) = LoadState.NOT_STARTED :=
  (fallback_double_failure ⟨"x.jpg", "y.jpg", false, none, ""⟩
    (by decide)).2.1

/-- C3: with a configured fallback B, the observable sequence is
NOT_STARTED(src), then — inside the failure handler — a transient
ERRORED(src) produced by the first statement of `handleError`, then
NOT_STARTED(B) with `onError` fired once, then LOADED(B) with `onLoad`
fired once; `hasError` is false in every observable state, so the error
region is never rendered. -/
theorem fallback_success (p : ImageProps) (hB : p.fallback ≠ "") :
    loadState (init p) = LoadState.NOT_STARTED ∧
    (init p).imageSrc = p.src ∧
    (handleErrorSetFlag (init p)).imageSrc = p.src ∧
    loadState (handleErrorSetFlag (init p)) = LoadState.ERRORED ∧
    (step (Event.errorNotif p) (init p)).imageSrc = p.fallback ∧
    loadState (step (Event.errorNotif p) (init p)) = LoadState.NOT_STARTED ∧
    (step (Event.errorNotif p) (init p)).onErrorCount = 1 ∧
    (run [Event.errorNotif p, Event.loadNotif] (init p)).imageSrc =
      p.fallback ∧
    loadState (run [Event.errorNotif p, Event.loadNotif] (init p)) =
      LoadState.LOADED ∧
    (run [Event.errorNotif p, Event.loadNotif] (init p)).onLoadCount = 1 ∧
    (run [Event.errorNotif p, Event.loadNotif] (init p)).onErrorCount = 1 ∧
    errorShown (init p) = false ∧
    errorShown (step (Event.errorNotif p) (init p)) = false ∧
    errorShown (run [Event.errorNotif p, Event.loadNotif] (init p)) = false := by
  refine ⟨?_, ?_, ?_, ?_, ?_, ?_, ?_, ?_, ?_, ?_, ?_, ?_, ?_, ?_⟩ <;>
    simp [run, step, handleError, handleErrorSetFlag, handleErrorFallback,
      handleLoad, loadState, errorShown, init, hB]

theorem fallback_success_witness :
    loadState (run
        [Event.errorNotif ⟨"bad.jpg", "good.jpg", false, none, ""⟩,
         Event.loadNotif]
      (init ⟨"bad.jpg", "good.jpg", false, none, ""⟩)) = LoadState.LOADED :=
  (fallback_success ⟨"bad.jpg", "good.jpg", false, none, ""⟩
    (by decide)).2.2.2.2.2.2.2.2.1

/-- C8 counterexample: with a non-empty srcset but an empty raw `src`,
the source-set mode is active yet the render plan consists of the
`<source>` entries only — the guard `props.src && renderImage()` drops
the plain single-source image entry, so the plan does not end with it. -/
theorem srcset_render_plan_cex :
    srcsetMode ⟨"", "", false, some [("image/webp", "a.webp")], ""⟩ = true ∧
    renderImageSrcset ⟨"", "", false, some [("image/webp", "a.webp")], ""⟩
        (init ⟨"", "", false, some [("image/webp", "a.webp")], ""⟩) =
      [RenderEntry.sourceEntry "image/webp" "a.webp"] ∧
    (renderImageSrcset ⟨"", "", false, some [("image/webp", "a.webp")], ""⟩
        (init ⟨"", "", false, some [("image/webp", "a.webp")], ""⟩)).getLast? =
      some (RenderEntry.sourceEntry "image/webp" "a.webp") := by
  refine ⟨rfl, by decide, by decide⟩

/-- C8 amended: the source-set mode activates iff the srcset mapping is
present and non-empty; in that mode, whenever the raw `src` prop is
non-empty, the render plan is each (type, URL) pair of the mapping in
mapping order followed last by the plain single-source image entry. -/
theorem srcset_render_plan (p : ImageProps) (s : State) :
    (srcsetMode p = true ↔ ∃ m, p.srcset = some m ∧ m ≠ []) ∧
    (∀ m, p.srcset = some m → m ≠ [] → p.src ≠ "" →
      srcsetMode p = true ∧
      renderImageSrcset p s =
        (m.map fun e => RenderEntry.sourceEntry e.1 e.2) ++
          [RenderEntry.imgEntry s.imageSrc] ∧
      (renderImageSrcset p s).getLast? =
        some (RenderEntry.imgEntry s.imageSrc)) := by
  constructor
  · constructor
    · intro h
      rcases hm : p.srcset with _ | m
      · simp [srcsetMode, hm] at h
      · refine ⟨m, rfl, ?_⟩
        simp only [srcsetMode, hm, bne_iff_ne, ne_eq] at h
        simpa [← List.length_eq_zero] using h
    · rintro ⟨m, hm, hne⟩
      simp only [srcsetMode, hm, bne_iff_ne, ne_eq]
      simpa [List.length_eq_zero] using hne
  · intro m hm hne hsrc
    refine ⟨?_, ?_, ?_⟩
    · simp only [srcsetMode, hm, bne_iff_ne, ne_eq]
      simpa [List.length_eq_zero] using hne
    · simp [renderImageSrcset, hm, hsrc, imgUrl]
    · simp [renderImageSrcset, hm, hsrc, imgUrl]

theorem srcset_render_plan_witness :
    renderImageSrcset
        ⟨"a.jpg", "", false,
          some [("image/webp", "a.webp"), ("image/png", "a.png")], ""⟩
        (init ⟨"a.jpg", "", false,
          some [("image/webp", "a.webp"), ("image/png", "a.png")], ""⟩) =
      [RenderEntry.sourceEntry "image/webp" "a.webp",
       RenderEntry.sourceEntry "image/png" "a.png",
       RenderEntry.imgEntry "a.jpg"] := by
  have h := ((srcset_render_plan
      ⟨"a.jpg", "", false,
        some [("image/webp", "a.webp"), ("image/png", "a.png")], ""⟩
      (init ⟨"a.jpg", "", false,
        some [("image/webp", "a.webp"), ("image/png", "a.png")], ""⟩)).2
    [("image/webp", "a.webp"), ("image/png", "a.png")]
    rfl (by decide) (by decide)).2.1
  simpa [init] using h

/-- C9 counterexample: in the reachable state where a load had succeeded
("a.jpg" loads, the source changes to "b.jpg", which fails with no
fallback), `hasError` and `isLoaded` are both true; when the preview url
then resolves to a non-empty value, the error flag is cleared but the
resulting state is LOADED, not NOT_STARTED. -/
theorem preview_error_clear_cex :
    (run [Event.loadNotif,
        Event.sourceChange ⟨none⟩ ⟨"b.jpg", "", false, none, ""⟩,
        Event.errorNotif ⟨"b.jpg", "", false, none, ""⟩]
      (init ⟨"a.jpg", "", false, none, ""⟩)).hasError = true ∧
    (run [Event.loadNotif,
        Event.sourceChange ⟨none⟩ ⟨"b.jpg", "", false, none, ""⟩,
        Event.errorNotif ⟨"b.jpg", "", false, none, ""⟩]
      (init ⟨"a.jpg", "", false, none, ""⟩)).isLoaded = true ∧
    (step (Event.previewResolved "p.jpg")
      (run [Event.loadNotif,
          Event.sourceChange ⟨none⟩ ⟨"b.jpg", "", false, none, ""⟩,
          Event.errorNotif ⟨"b.jpg", "", false, none, ""⟩]
        (init ⟨"a.jpg", "", false, none, ""⟩))).hasError = false ∧
    loadState (step (Event.previewResolved "p.jpg")
      (run [Event.loadNotif,
          Event.sourceChange ⟨none⟩ ⟨"b.jpg", "", false, none, ""⟩,
          Event.errorNotif ⟨"b.jpg", "", false, none, ""⟩]
        (init ⟨"a.jpg", "", false, none, ""⟩))) = LoadState.LOADED ∧
    decide (loadState (step (Event.previewResolved "p.jpg")
      (run [Event.loadNotif,
          Event.sourceChange ⟨none⟩ ⟨"b.jpg", "", false, none, ""⟩,
          Event.errorNotif ⟨"b.jpg", "", false, none, ""⟩]
        (init ⟨"a.jpg", "", false, none, ""⟩))) = LoadState.NOT_STARTED) =
      false := by
  refine ⟨rfl, rfl, rfl, rfl, rfl⟩

/-- C9 amended: whenever the component is in error and the preview url
resolves to a non-empty value, the preview effect clears the error flag;
the resulting state is NOT_STARTED when no load had succeeded, and
LOADED when one had. -/
theorem preview_error_clear (s : State) (url : String)
    (he : s.hasError = true) (hu : url ≠ "") :
    (previewEffect url s).hasError = false ∧
    (previewEffect url s).previewUrl = url ∧
    (s.isLoaded = false →
      loadState (previewEffect url s) = LoadState.NOT_STARTED) ∧
    (s.isLoaded = true →
      loadState (previewEffect url s) = LoadState.LOADED) := by
  refine ⟨?_, ?_, ?_, ?_⟩ <;>
    simp [previewEffect, loadState, he, hu]

theorem preview_error_clear_witness :
    (previewEffect "p.jpg"
        (handleErrorSetFlag (init ⟨"a.jpg", "", false, none, ""⟩))).hasError =
      false :=
  (preview_error_clear
    (handleErrorSetFlag (init ⟨"a.jpg", "", false, none, ""⟩)) "p.jpg"
    rfl (by decide)).1

/-- C10: `isLoaded` is monotone — no event handler ever assigns it back
to false, so once true it stays true along every event sequence, and the
loading indicator is never rendered again after the first successful
load. -/
theorem isLoaded_monotone (e : Event) (s : State) (tr : List Event) :
    (s.isLoaded = true → (step e s).isLoaded = true) ∧
    (s.isLoaded = true → (run tr s).isLoaded = true) ∧
    (s.isLoaded = true → loadingShown (run tr s) = false) := by
  refine ⟨fun h => step_isLoaded_mono e s h,
    fun h => run_isLoaded_mono tr s h, fun h => ?_⟩
  have hl := run_isLoaded_mono tr s h
  simp [loadingShown, contentShown, hl]

theorem isLoaded_monotone_witness :
    loadingShown (run
        [Event.sourceChange ⟨none⟩ ⟨"b.jpg", "", false, none, ""⟩]
      (handleLoad (init ⟨"a.jpg", "", false, none, ""⟩))) = false :=
  (isLoaded_monotone Event.loadNotif
    (handleLoad (init ⟨"a.jpg", "", false, none, ""⟩))
    [Event.sourceChange ⟨none⟩ ⟨"b.jpg", "", false, none, ""⟩]).2.2 rfl

end TDImage
